import Mathlib

/-!
Shallow embedding of `src/index.js` (the Sybase node bridge): the
correlation engine's state (`queryCount`, `currentMessages`), the
response/error dispatch handlers (`onSQLResponse`, `onSQLError`), request
submission (`prepareQuery`, `query`, `querySync`), the connect handshake
(`connectCore`), teardown (`disconnect`), and the wire serialization
(`JSON.stringify(msg).replace(/[\n]/g, "\\n")`).

JavaScript runtime behaviour that the source relies on is modelled
explicitly: property access on `undefined`/`null` and calling a
non-function raise a `TypeError` (modelled by `JsError`); `JSON.stringify`
drops function-valued properties, keeps `null`-valued ones, and escapes
control characters inside strings; `for..in` enumerates integer-like keys
in ascending order before other string keys.
-/

namespace Sybase

/-- Opaque result-set object carried in the `result` array of a response. -/
abbrev RS := Nat

/-- The value stored in a pending message's `callback` slot: either a real
function (identified by a caller-chosen tag) as passed to `query`, or the
literal `null` stored by `querySync` (index.js line 226). -/
inductive CbSlot where
  | fn (tag : Nat)
  | null
  deriving DecidableEq, Repr

/-- The `msg` object built by `prepareQuery` (index.js lines 166-172):
`{ msgId, sql, sentTime, callback, hrstart }`. -/
structure Msg where
  msgId : Nat
  sql : String
  sentTime : Nat
  callback : CbSlot
  hrstart : Nat × Nat
  deriving DecidableEq, Repr

/-- The `currentMessages` object. It is initialised to `{ cat: 1 }`
(index.js line 38): `sentinel` records whether that `cat` entry is still
present, and `msgs` holds the numeric-keyed pending messages in ascending
`msgId` order (JavaScript `for..in` enumerates integer-like keys in
ascending order, before the string key `cat`). -/
structure Table where
  sentinel : Bool
  msgs : List Msg
  deriving DecidableEq, Repr

/-- Lookup `currentMessages[i]` for an integer key `i` (the `cat` entry is
never found by an integer key). -/
def Table.lookup (t : Table) (i : Nat) : Option Msg :=
  t.msgs.find? (fun m => m.msgId == i)

/-- The effect of `delete currentMessages[i]`. -/
def Table.remove (t : Table) (i : Nat) : Table :=
  ⟨t.sentinel, t.msgs.filter (fun m => m.msgId != i)⟩

/-- The effect of `currentMessages[msg.msgId] = msg` for a fresh key. -/
def Table.insert (t : Table) (m : Msg) : Table :=
  ⟨t.sentinel, t.msgs ++ [m]⟩

/-- The bridge instance state touched by the correlation engine:
`this.connected`, `this.queryCount`, `this.currentMessages`
(index.js lines 16, 37, 38). -/
structure EngineState where
  connected : Bool
  queryCount : Nat
  table : Table
  deriving DecidableEq, Repr

/-- Fresh instance state right after a successful connect handshake:
`connected = true`, `queryCount = 0`, `currentMessages = { cat: 1 }`. -/
def initConnected : EngineState := ⟨true, 0, ⟨true, []⟩⟩

/-- A value delivered to a continuation or future: either a bare result-set
element (the unwrapped `result[0]`), a sequence of result sets, or the
JavaScript `undefined` (e.g. `resolve(jsonMsg.result)` when `result` is
absent). -/
inductive Delivered where
  | elem (r : RS)
  | list (rs : List RS)
  | undef
  deriving DecidableEq, Repr

/-- Observable actions of the engine. `invoke tag err payload` is a call of
the function callback `tag` as `callback(err, payload)` (`payload = none`
when no second argument is passed); `resolve`/`reject` settle the
`querySync` promise; `write` is `this.javaDB.stdin.write`; `kill` is
`this.javaDB.kill()`; `alloc i` marks the `this.queryCount++` allocation of
identifier `i` inside `prepareQuery`. -/
inductive Event where
  | invoke (tag : Nat) (err : Option String) (payload : Option Delivered)
  | resolve (v : Delivered)
  | reject (msg : String)
  | write (line : String)
  | kill
  | alloc (i : Nat)
  deriving DecidableEq, Repr

/-- A JavaScript runtime error escaping a handler (e.g. a `TypeError` from
reading a property of `undefined` or calling a non-function). -/
inductive JsError where
  | typeError (site : String)
  deriving DecidableEq, Repr

/-- Result of running one handler: the state afterwards, the observable
events emitted before any throw (in order), and the error that escaped the
handler, if any. -/
structure Outcome where
  state : EngineState
  events : List Event
  error : Option JsError
  deriving DecidableEq, Repr

/-- A decoded inbound JSON message from the worker. `msgId` and `result`
are `Option` because the message is untrusted and either field may be
absent (`none` models the field reading as `undefined`). -/
structure InboundMsg where
  msgId : Option Nat
  result : Option (List RS)
  javaStartTime : Nat
  javaEndTime : Nat
  error : Option String
  deriving DecidableEq, Repr

/-- Lookup `currentMessages[jsonMsg.msgId]` where `msgId` may be `undefined`. -/
def lookupOpt (t : Table) : Option Nat → Option Msg
  | none => none
  | some i => t.lookup i

/-- Deletion `delete currentMessages[jsonMsg.msgId]` where `msgId` may be
`undefined` (a no-op in that case). -/
def removeOpt (t : Table) : Option Nat → Table
  | none => t
  | some i => t.remove i

/-- The unwrapping rule of index.js lines 63-65: a length-1 result array
becomes its bare element, anything else is passed through as the
sequence. -/
def unwrapResult (rs : List RS) : Delivered :=
  match rs with
  | [r] => Delivered.elem r
  | _ => Delivered.list rs

/-- Handler `onSQLResponse` (index.js lines 56-88), step by step:
look up and delete the entry for `jsonMsg.msgId`; read
`jsonMsg.result.length` (throws if `result` is absent) and unwrap a
length-1 array to its single element (line 63-65); read `request.hrstart`
for timing (line 69, throws if the lookup found nothing); build `err` from
`jsonMsg.error`; finally call `request.callback(err, result)` (line 87,
throws if the stored callback is `null`). -/
def onSQLResponse (st : EngineState) (jsonMsg : InboundMsg) : Outcome :=
  let request := lookupOpt st.table jsonMsg.msgId
  let st' : EngineState := { st with table := removeOpt st.table jsonMsg.msgId }
  match jsonMsg.result with
  | none => ⟨st', [], some (JsError.typeError ("result is undefined: result.length"))⟩
  | some rs =>
    let payload : Delivered := unwrapResult rs
    match request with
    | none => ⟨st', [], some (JsError.typeError ("request is undefined: request.hrstart"))⟩
    | some req =>
      match req.callback with
      | CbSlot.null => ⟨st', [], some (JsError.typeError ("request.callback is null: not a function"))⟩
      | CbSlot.fn tag => ⟨st', [Event.invoke tag jsonMsg.error (some payload)], none⟩

/-- The `for (const k in this.currentMessages)` collection loop of
`onSQLError` (index.js lines 101-106): for every entry it pushes
`this.currentMessages[k].callback`. Numeric keys come first (the pending
messages, whose slot is a function or `null`), then the `cat` key, whose
value `1` has no `callback` property, so `undefined` (modelled as the outer
`none`) is pushed. -/
def collectCallbacks (t : Table) : List (Option CbSlot) :=
  t.msgs.map (fun m => some m.callback) ++ (if t.sentinel then [none] else [])

/-- The `callBackFuncitons.forEach(cb => cb(error))` loop (index.js lines
109-111): each function callback is called as `cb(error)`; calling `null`
or `undefined` throws a `TypeError`, abandoning the rest of the loop. -/
def invokeAll (errText : String) : List (Option CbSlot) → List Event × Option JsError
  | [] => ([], none)
  | some (CbSlot.fn tag) :: rest =>
    let (es, e) := invokeAll errText rest
    (Event.invoke tag (some errText) none :: es, e)
  | some CbSlot.null :: _ => ([], some (JsError.typeError ("cb is null: not a function")))
  | none :: _ => ([], some (JsError.typeError ("cb is undefined: not a function")))

/-- Handler `onSQLError` (index.js lines 98-112): build `new Error(data)`, collect
every entry's `.callback`, reassign `this.currentMessages = []` (clearing
both the pending messages and the `cat` sentinel), then call each collected
value with the error. -/
def onSQLError (st : EngineState) (data : String) : Outcome :=
  let cbs := collectCallbacks st.table
  let st' : EngineState := { st with table := ⟨false, []⟩ }
  let (es, e) := invokeAll data cbs
  ⟨st', es, e⟩

/-- Decimal digit character, `'0'..'9'`. -/
def digitChar10 (d : Nat) : Char := Char.ofNat (48 + d % 10)

/-- Fuel-driven accumulator loop producing the decimal digits of `n`. -/
def natDigitsGo (fuel : Nat) (n : Nat) (acc : List Char) : List Char :=
  match fuel with
  | 0 => acc
  | fuel + 1 =>
    if n < 10 then digitChar10 n :: acc
    else natDigitsGo fuel (n / 10) (digitChar10 (n % 10) :: acc)

/-- Decimal rendering of a natural number, as `JSON.stringify` renders an
integer-valued JavaScript number. -/
def natToString (n : Nat) : String := String.mk (natDigitsGo (n + 1) n [])

/-- Lowercase hexadecimal digit, as used in `\u00XX` escapes. -/
def hexDigit (n : Nat) : Char :=
  if n < 10 then Char.ofNat (48 + n) else Char.ofNat (87 + n)

/-- Four lowercase hex digits of `n < 0x10000`. -/
def hex4 (n : Nat) : List Char :=
  [hexDigit (n / 4096 % 16), hexDigit (n / 256 % 16), hexDigit (n / 16 % 16), hexDigit (n % 16)]

/-- How `JSON.stringify` escapes one character inside a string value:
`"` and `\` get a backslash; backspace, tab, newline, form feed and
carriage return get their short escapes; other control characters below
U+0020 get a `\u00XX` escape; everything else is emitted as itself. -/
def jsonEscapeChar (c : Char) : List Char :=
  if c = '"' then ['\\', '"']
  else if c = '\\' then ['\\', '\\']
  else if c = '\x08' then ['\\', 'b']
  else if c = '\t' then ['\\', 't']
  else if c = '\n' then ['\\', 'n']
  else if c = '\x0c' then ['\\', 'f']
  else if c = '\x0d' then ['\\', 'r']
  else if c.toNat < 32 then '\\' :: 'u' :: hex4 c.toNat
  else [c]

/-- Escape every character of a string body. -/
def escChars : List Char → List Char
  | [] => []
  | c :: cs => jsonEscapeChar c ++ escChars cs

/-- A JSON string literal: quote, escaped body, quote. -/
def quoteJson (s : String) : String :=
  "\"" ++ String.mk (escChars s.data) ++ "\""

/-- Comma-joining of rendered fragments, as `Array.prototype.join(",")`
does inside `JSON.stringify`. -/
def joinComma : List String → String
  | [] => ""
  | [s] => s
  | s :: ss => s ++ "," ++ joinComma ss

/-- The JavaScript values appearing as properties of the `msg` object. -/
inductive JsVal where
  | num (n : Nat)
  | str (s : String)
  | fn (tag : Nat)
  | nul
  | arrN (xs : List Nat)
  deriving DecidableEq, Repr

/-- Action of `JSON.stringify` on one property value: numbers and strings serialize,
`null` serializes to `null`, an array of numbers to `[a,b,...]`, and a
function value is not serializable (the property is dropped). -/
def stringifyVal : JsVal → Option String
  | JsVal.num n => some (natToString n)
  | JsVal.str s => some (quoteJson s)
  | JsVal.fn _ => none
  | JsVal.nul => some ("null")
  | JsVal.arrN xs => some ("[" ++ joinComma (xs.map natToString) ++ "]")

/-- Action of `JSON.stringify` on a plain object given its properties in insertion
order: serializable properties are rendered `"key":value` and joined with
commas inside braces; properties whose value does not serialize (functions)
are skipped. -/
def renderProp (kv : String × JsVal) : Option String :=
  (stringifyVal kv.2).map fun sv => quoteJson kv.1 ++ ":" ++ sv

/-- Continuation of the above: the full object literal. -/
def stringifyProps (props : List (String × JsVal)) : String :=
  "\x7b" ++ joinComma (props.filterMap renderProp) ++ "\x7d"

/-- The property list of the `msg` object built at index.js lines 166-172,
in insertion order: `msgId`, `sql`, `sentTime`, `callback`, `hrstart`. -/
def msgProps (m : Msg) : List (String × JsVal) :=
  [("msgId", JsVal.num m.msgId),
   ("sql", JsVal.str m.sql),
   ("sentTime", JsVal.num m.sentTime),
   ("callback", match m.callback with | CbSlot.fn t => JsVal.fn t | CbSlot.null => JsVal.nul),
   ("hrstart", JsVal.arrN [m.hrstart.1, m.hrstart.2])]

/-- The string `JSON.stringify(msg)` (index.js line 174). -/
def stringifyMsg (m : Msg) : String := stringifyProps (msgProps m)

/-- One pass of `.replace(/[\n]/g, "\\n")` over the character list. -/
def replNl : List Char → List Char
  | [] => []
  | c :: cs => (if c = '\n' then ['\\', 'n'] else [c]) ++ replNl cs

/-- The string `s.replace(/[\n]/g, "\\n")` (index.js line 174). -/
def jsReplaceNewlines (s : String) : String := String.mk (replNl s.data)

/-- The `strMsg` returned by a successful `prepareQuery`:
`JSON.stringify(msg).replace(/[\n]/g, "\\n")`. -/
def wireMsg (m : Msg) : String := jsReplaceNewlines (stringifyMsg m)

/-- Function `prepareQuery(sql, callback)` (index.js lines 156-183). When not
connected it calls `callback(new Error("Database isn\x27t connected."))` if
the callback is truthy and returns `null` (no identifier allocated, no
insertion). Otherwise it captures `hrstart`, increments `this.queryCount`,
builds `msg`, serializes it, inserts it into `currentMessages` keyed by
`msg.msgId`, and returns the serialized line. The `nowMs`/`hr` arguments
are the ambient clock readings (`new Date().getTime()`,
`process.hrtime()`). -/
def prepareQuery (st : EngineState) (sql : String) (cb : CbSlot) (nowMs : Nat)
    (hr : Nat × Nat) : EngineState × List Event × Option String :=
  if st.connected then
    let qc := st.queryCount + 1
    let msg : Msg := ⟨qc, sql, nowMs, cb, hr⟩
    let strMsg := wireMsg msg
    ({ st with queryCount := qc, table := st.table.insert msg },
     [Event.alloc qc], some strMsg)
  else
    (st,
     match cb with
     | CbSlot.fn tag => [Event.invoke tag (some ("Database isn\x27t connected.")) none]
     | CbSlot.null => [],
     none)

/-- The listener `querySync` installs on the shared `jsonParser`
(index.js lines 232-238): it reacts only to a message whose `msgId`
strictly equals the instance's current `queryCount`; it then rejects with
the message's `error` text if present, else resolves with the raw
`jsonMsg.result` value (no unwrapping; `undefined` if the field is
absent). -/
def querySyncOnResponse (queryCountNow : Nat) (jsonMsg : InboundMsg) : Option Event :=
  if jsonMsg.msgId = some queryCountNow then
    some (match jsonMsg.error with
      | some e => Event.reject e
      | none =>
        match jsonMsg.result with
        | some rs => Event.resolve (Delivered.list rs)
        | none => Event.resolve Delivered.undef)
  else none

/-- The operations driving the engine state: the two submission entry
points, an inbound decoded JSON message (dispatched to `onSQLResponse`),
post-handshake error-stream data (dispatched to `onSQLError`),
`disconnect()`, and a subsequent successful re-connect handshake (which
only sets `this.connected = true`; index.js line 125 — `queryCount` and
`currentMessages` are untouched by `connectCore`). -/
inductive Op where
  | query (sql : String) (tag : Nat) (nowMs : Nat) (hr : Nat × Nat)
  | querySyncSubmit (sql : String) (nowMs : Nat) (hr : Nat × Nat)
  | response (m : InboundMsg)
  | channelFault (data : String)
  | disconnect
  | reconnect
  deriving Repr

/-- One step of the engine. `query` (index.js lines 201-207) returns
silently when `prepareQuery` gave `null`, else writes the line plus a
newline. `querySync` (lines 224-245) rejects its promise when
`prepareQuery` gave `null`, else writes the line plus a newline.
`disconnect` (lines 254-257) kills the worker and clears the connected
flag. -/
def step (st : EngineState) : Op → Outcome
  | Op.query sql tag nowMs hr =>
    match prepareQuery st sql (CbSlot.fn tag) nowMs hr with
    | (st', es, none) => ⟨st', es, none⟩
    | (st', es, some l) => ⟨st', es ++ [Event.write (l ++ "\n")], none⟩
  | Op.querySyncSubmit sql nowMs hr =>
    match prepareQuery st sql CbSlot.null nowMs hr with
    | (st', es, none) => ⟨st', es ++ [Event.reject ("Database isn\x27t connected.")], none⟩
    | (st', es, some l) => ⟨st', es ++ [Event.write (l ++ "\n")], none⟩
  | Op.response m => onSQLResponse st m
  | Op.channelFault d => onSQLError st d
  | Op.disconnect => ⟨{ st with connected := false }, [Event.kill], none⟩
  | Op.reconnect => ⟨{ st with connected := true }, [], none⟩

/-- Final state after a sequence of operations. -/
def runState (st : EngineState) : List Op → EngineState
  | [] => st
  | op :: ops => runState (step st op).state ops

/-- Concatenated event trace of a sequence of operations. -/
def runEvents (st : EngineState) : List Op → List Event
  | [] => []
  | op :: ops => (step st op).events ++ runEvents (step st op).state ops

/-- The identifiers allocated in a trace, in order. -/
def allocsOf (es : List Event) : List Nat :=
  es.filterMap fun e => match e with | Event.alloc i => some i | _ => none

/-- Whitespace characters removed by JavaScript's `String.prototype.trim`
(the ASCII ones; the source's handshake strings are ASCII). -/
def isJsSpace (c : Char) : Bool :=
  c = ' ' || c = '\t' || c = '\n' || c = '\x0d' || c = '\x0b' || c = '\x0c'

/-- The string `data.toString().trim()` (index.js line 118). -/
def jsTrim (s : String) : String :=
  String.mk (((s.data.dropWhile isJsSpace).reverse.dropWhile isJsSpace).reverse)

/-- Listener/flag state during and after the `connectCore` handshake
(index.js lines 114-138): whether the `once('data')` handshake listeners on
stdout/stderr are still attached, whether `this.connected` was set, whether
the post-handshake listeners (jsonParser pipe and the stderr `on('data')`)
were attached, and whether `this.javaDB.kill()` was called. -/
structure HandshakeState where
  stdoutOnce : Bool
  stderrOnce : Bool
  connected : Bool
  postAttached : Bool
  killed : Bool
  deriving DecidableEq, Repr

/-- Handshake listener state right after `connectCore` spawns the worker:
both `once` listeners attached, nothing else done. -/
def handshakeInit : HandshakeState := ⟨true, true, false, false, false⟩

/-- An invocation of the connect callback. -/
inductive ConnectCb where
  | ok (s : String)
  | err (s : String)
  deriving DecidableEq, Repr

/-- A raw event on one of the worker's streams during the handshake
phase. -/
inductive StreamEvent where
  | stdout (data : String)
  | stderrData (data : String)
  deriving DecidableEq, Repr

/-- One handshake-phase stream event, as handled by `connectCore`
(index.js lines 117-137). A stdout event consumes the stdout `once`
listener; if the trimmed data is not `connected` the callback is invoked
with `Error connecting <data>` and nothing else happens (the stderr
handshake listener stays attached); otherwise the stderr listeners are
removed, `this.connected` is set, the post-handshake listeners are
attached, and the callback is invoked with the trimmed text. A stderr
event consumes the stderr `once` listener, removes the stdout data
listeners, kills the worker, and invokes the callback with the data. An
event on a stream whose handshake listener is gone invokes no connect
callback. -/
def handshakeStep (st : HandshakeState) : StreamEvent → HandshakeState × List ConnectCb
  | StreamEvent.stdout data =>
    if st.stdoutOnce then
      let st1 := { st with stdoutOnce := false }
      let dataStr := jsTrim data
      if dataStr ≠ "connected" then
        (st1, [ConnectCb.err ("Error connecting " ++ dataStr)])
      else
        ({ st1 with stderrOnce := false, connected := true, postAttached := true },
         [ConnectCb.ok dataStr])
    else (st, [])
  | StreamEvent.stderrData data =>
    if st.stderrOnce then
      ({ st with stderrOnce := false, stdoutOnce := false, killed := true },
       [ConnectCb.err data])
    else (st, [])

/-- All connect-callback invocations over a sequence of handshake-phase
stream events. -/
def handshakeRun (st : HandshakeState) : List StreamEvent → HandshakeState × List ConnectCb
  | [] => (st, [])
  | ev :: evs =>
    let (st1, cbs1) := handshakeStep st ev
    let (st2, cbs2) := handshakeRun st1 evs
    (st2, cbs1 ++ cbs2)

/-- Value of a hexadecimal digit character. -/
def hexVal (c : Char) : Option Nat :=
  if '0' ≤ c ∧ c ≤ '9' then some (c.toNat - 48)
  else if 'a' ≤ c ∧ c ≤ 'f' then some (c.toNat - 87)
  else if 'A' ≤ c ∧ c ≤ 'F' then some (c.toNat - 55)
  else none

/-- Decoding of a single-character JSON escape. -/
def escDecode (e : Char) : Option Char :=
  if e = '"' then some '"'
  else if e = '\\' then some '\\'
  else if e = '/' then some '/'
  else if e = 'b' then some '\x08'
  else if e = 'f' then some '\x0c'
  else if e = 'n' then some '\n'
  else if e = 'r' then some '\x0d'
  else if e = 't' then some '\t'
  else none

/-- Decoder state: scanning ordinary characters, just after a backslash,
or inside a `\uXXXX` escape with `need` digits still to read and `acc` the
value of the digits read so far. -/
inductive PMode where
  | normal
  | afterBackslash
  | unicode (need : Nat) (acc : Nat)
  deriving DecidableEq, Repr

/-- Standard JSON string-literal decoder, one input character per step:
given the characters following the opening quote, decode up to and
including the closing quote, returning the decoded body and the remaining
input (`none` on a malformed literal). -/
def parseBodyMode : List Char → PMode → Option (List Char × List Char)
  | [], _ => none
  | c :: rest, PMode.normal =>
    if c = '"' then some ([], rest)
    else if c = '\\' then parseBodyMode rest PMode.afterBackslash
    else (parseBodyMode rest PMode.normal).map fun p => (c :: p.1, p.2)
  | e :: rest, PMode.afterBackslash =>
    if e = 'u' then parseBodyMode rest (PMode.unicode 4 0)
    else
      match escDecode e with
      | some dc => (parseBodyMode rest PMode.normal).map fun p => (dc :: p.1, p.2)
      | none => none
  | hx :: rest, PMode.unicode (need + 1) acc =>
    match hexVal hx with
    | some d =>
      if need = 0 then
        (parseBodyMode rest PMode.normal).map fun p => (Char.ofNat (16 * acc + d) :: p.1, p.2)
      else parseBodyMode rest (PMode.unicode need (16 * acc + d))
    | none => none
  | _ :: _, PMode.unicode 0 _ => none

/-- Entry point of the decoder, positioned right after the opening
quote. -/
def parseJsonStringBody (l : List Char) : Option (List Char × List Char) :=
  parseBodyMode l PMode.normal

/-- Modelled from the spec: the request envelope of spec section 6,
`{"msgId": <int>, "sql": "<text, embedded \n escaped>", "sentTime":
<epoch-ms>}`, containing exactly the three fields `msgId`, `sql` and
`sentTime` and no others. Used to compare the spec's stated wire format
with the line the code actually produces. -/
def specEnvelope (m : Msg) : String :=
  "\x7b\"msgId\":" ++ natToString m.msgId ++ ",\"sql\":" ++ quoteJson m.sql
    ++ ",\"sentTime\":" ++ natToString m.sentTime ++ "\x7d"

/-! Helper lemmas: newline-freedom of the serialized line, the
`.replace` no-op, digit purity of number rendering, and the JSON
string-literal escape/decode round trip. -/

theorem hexVal_hexDigit : ∀ m, m < 16 → hexVal (hexDigit m) = some m := by decide

theorem hexDigit_mod16_ne_nl (k : Nat) : hexDigit (k % 16) ≠ '\n' := by
  have h : ∀ m, m < 16 → hexDigit m ≠ '\n' := by decide
  exact h _ (Nat.mod_lt _ (by decide))

theorem nl_not_mem_hex4 (n : Nat) : '\n' ∉ hex4 n := by
  intro hm
  simp only [hex4, List.mem_cons, List.not_mem_nil, or_false] at hm
  rcases hm with h | h | h | h
  · exact hexDigit_mod16_ne_nl (n / 4096) h.symm
  · exact hexDigit_mod16_ne_nl (n / 256) h.symm
  · exact hexDigit_mod16_ne_nl (n / 16) h.symm
  · exact hexDigit_mod16_ne_nl n h.symm

theorem nl_not_mem_jsonEscapeChar (c : Char) : '\n' ∉ jsonEscapeChar c := by
  unfold jsonEscapeChar
  split_ifs with h1 h2 h3 h4 h5 h6 h7 h8
  · decide
  · decide
  · decide
  · decide
  · decide
  · decide
  · decide
  · intro hm
    rcases List.mem_cons.mp hm with h | h
    · exact absurd h (by decide)
    rcases List.mem_cons.mp h with h' | h'
    · exact absurd h' (by decide)
    · exact nl_not_mem_hex4 _ h'
  · intro hm
    rcases List.mem_cons.mp hm with h | h
    · exact h5 h.symm
    · exact absurd h (List.not_mem_nil _)

theorem nl_not_mem_escChars (l : List Char) : '\n' ∉ escChars l := by
  induction l with
  | nil => simp [escChars]
  | cons c cs ih =>
    intro hm
    rcases List.mem_append.mp hm with h | h
    · exact nl_not_mem_jsonEscapeChar c h
    · exact ih h

theorem nl_not_mem_replNl (l : List Char) : '\n' ∉ replNl l := by
  induction l with
  | nil => simp [replNl]
  | cons c cs ih =>
    intro hm
    simp only [replNl] at hm
    rcases List.mem_append.mp hm with h | h
    · by_cases hc : c = '\n'
      · rw [if_pos hc] at h
        rcases List.mem_cons.mp h with h' | h'
        · exact absurd h' (by decide)
        rcases List.mem_cons.mp h' with h'' | h''
        · exact absurd h'' (by decide)
        · exact absurd h'' (List.not_mem_nil _)
      · rw [if_neg hc] at h
        rcases List.mem_cons.mp h with h' | h'
        · exact hc h'.symm
        · exact absurd h' (List.not_mem_nil _)
    · exact ih h

theorem replNl_eq_self {l : List Char} (h : '\n' ∉ l) : replNl l = l := by
  induction l with
  | nil => rfl
  | cons c cs ih =>
    have hc : ¬(c = '\n') := fun hc => h (hc ▸ List.mem_cons_self c cs)
    simp only [replNl, if_neg hc, List.singleton_append, List.cons.injEq, true_and]
    exact ih fun hm => h (List.mem_cons_of_mem _ hm)

theorem jsReplaceNewlines_eq_self {s : String} (h : '\n' ∉ s.data) :
    jsReplaceNewlines s = s := by
  cases s with
  | mk data => simp [jsReplaceNewlines, replNl_eq_self h]

theorem digitChar10_isDigit (d : Nat) : (digitChar10 d).isDigit = true := by
  have h : ∀ m, m < 10 → (Char.ofNat (48 + m)).isDigit = true := by decide
  exact h _ (Nat.mod_lt _ (by decide))

theorem natDigitsGo_digits (fuel : Nat) : ∀ (n : Nat) (acc : List Char),
    (∀ c ∈ acc, c.isDigit = true) → ∀ c ∈ natDigitsGo fuel n acc, c.isDigit = true := by
  induction fuel with
  | zero => intro n acc hacc; simpa [natDigitsGo] using hacc
  | succ fuel ih =>
    intro n acc hacc
    simp only [natDigitsGo]
    split
    · intro c hc
      rcases List.mem_cons.mp hc with h | h
      · exact h ▸ digitChar10_isDigit n
      · exact hacc c h
    · refine ih _ _ ?_
      intro c hc
      rcases List.mem_cons.mp hc with h | h
      · exact h ▸ digitChar10_isDigit _
      · exact hacc c h

theorem nl_not_mem_natToString (n : Nat) : '\n' ∉ (natToString n).data := by
  intro hm
  have h := natDigitsGo_digits (n + 1) n [] (by simp) '\n' hm
  exact absurd h (by decide)

theorem nl_not_mem_quoteJson (s : String) : '\n' ∉ (quoteJson s).data := by
  intro hm
  simp only [quoteJson, String.data_append] at hm
  rcases List.mem_append.mp hm with h | h
  · rcases List.mem_append.mp h with h' | h'
    · exact absurd h' (by decide)
    · exact nl_not_mem_escChars _ h'
  · exact absurd h (by decide)

theorem nl_not_mem_joinComma (l : List String)
    (hl : ∀ s ∈ l, '\n' ∉ s.data) : '\n' ∉ (joinComma l).data := by
  induction l with
  | nil => simp [joinComma]
  | cons s ss ih =>
    cases ss with
    | nil => simpa [joinComma] using hl s (by simp)
    | cons s2 ss2 =>
      intro hm
      simp only [joinComma, String.data_append] at hm
      rcases List.mem_append.mp hm with h | h
      · rcases List.mem_append.mp h with h' | h'
        · exact hl s (by simp) h'
        · exact absurd h' (by decide)
      · exact ih (fun x hx => hl x (List.mem_cons_of_mem _ hx)) h

theorem nl_not_mem_stringifyVal (v : JsVal) (sv : String) (h : stringifyVal v = some sv) :
    '\n' ∉ sv.data := by
  cases v with
  | num n =>
    simp only [stringifyVal, Option.some.injEq] at h
    exact h ▸ nl_not_mem_natToString n
  | str s =>
    simp only [stringifyVal, Option.some.injEq] at h
    exact h ▸ nl_not_mem_quoteJson s
  | fn tag => simp [stringifyVal] at h
  | nul =>
    simp only [stringifyVal, Option.some.injEq] at h
    subst h; decide
  | arrN xs =>
    simp only [stringifyVal, Option.some.injEq] at h
    subst h
    intro hm
    simp only [String.data_append] at hm
    rcases List.mem_append.mp hm with h | h
    · rcases List.mem_append.mp h with h' | h'
      · exact absurd h' (by decide)
      · refine nl_not_mem_joinComma _ ?_ h'
        intro x hx
        rcases List.mem_map.mp hx with ⟨n, _, rfl⟩
        exact nl_not_mem_natToString n
    · exact absurd h (by decide)

theorem nl_not_mem_stringifyMsg (m : Msg) : '\n' ∉ (stringifyMsg m).data := by
  intro hm
  simp only [stringifyMsg, stringifyProps, String.data_append] at hm
  rcases List.mem_append.mp hm with h | h
  · rcases List.mem_append.mp h with h' | h'
    · exact absurd h' (by decide)
    · refine nl_not_mem_joinComma _ ?_ h'
      intro x hx
      rcases List.mem_filterMap.mp hx with ⟨kv, _, hkv⟩
      simp only [renderProp, Option.map_eq_some'] at hkv
      rcases hkv with ⟨sv, hsv, rfl⟩
      intro hxm
      simp only [String.data_append] at hxm
      rcases List.mem_append.mp hxm with h2 | h2
      · rcases List.mem_append.mp h2 with h3 | h3
        · exact nl_not_mem_quoteJson _ h3
        · exact absurd h3 (by decide)
      · exact nl_not_mem_stringifyVal _ _ hsv h2
  · exact absurd h (by decide)

theorem wireMsg_eq_stringifyMsg (m : Msg) : wireMsg m = stringifyMsg m :=
  jsReplaceNewlines_eq_self (nl_not_mem_stringifyMsg m)

theorem parse_jsonEscapeChar (c : Char) (l : List Char) (p : List Char × List Char)
    (h : parseBodyMode l PMode.normal = some p) :
    parseBodyMode (jsonEscapeChar c ++ l) PMode.normal = some (c :: p.1, p.2) := by
  unfold jsonEscapeChar
  split_ifs with h1 h2 h3 h4 h5 h6 h7 h8
  · subst h1
    show (parseBodyMode l PMode.normal).map (fun q => ('"' :: q.1, q.2)) = _
    rw [h]; rfl
  · subst h2
    show (parseBodyMode l PMode.normal).map (fun q => ('\\' :: q.1, q.2)) = _
    rw [h]; rfl
  · subst h3
    show (parseBodyMode l PMode.normal).map (fun q => ('\x08' :: q.1, q.2)) = _
    rw [h]; rfl
  · subst h4
    show (parseBodyMode l PMode.normal).map (fun q => ('\t' :: q.1, q.2)) = _
    rw [h]; rfl
  · subst h5
    show (parseBodyMode l PMode.normal).map (fun q => ('\n' :: q.1, q.2)) = _
    rw [h]; rfl
  · subst h6
    show (parseBodyMode l PMode.normal).map (fun q => ('\x0c' :: q.1, q.2)) = _
    rw [h]; rfl
  · subst h7
    show (parseBodyMode l PMode.normal).map (fun q => ('\x0d' :: q.1, q.2)) = _
    rw [h]; rfl
  · have hv := fun k => hexVal_hexDigit (k % 16) (Nat.mod_lt k (by decide))
    have e1 : parseBodyMode ('\\' :: 'u' :: hex4 c.toNat ++ l) PMode.normal =
        parseBodyMode (hex4 c.toNat ++ l) (PMode.unicode 4 0) := rfl
    rw [e1]
    show parseBodyMode
        (hexDigit (c.toNat / 4096 % 16) :: hexDigit (c.toNat / 256 % 16)
          :: hexDigit (c.toNat / 16 % 16) :: hexDigit (c.toNat % 16) :: l)
        (PMode.unicode 4 0) = _
    rw [show (4 : Nat) = 3 + 1 from rfl]
    rw [parseBodyMode]
    rw [hv (c.toNat / 4096)]
    simp only [if_neg (by decide : ¬(3 : Nat) = 0)]
    rw [show (3 : Nat) = 2 + 1 from rfl, parseBodyMode, hv (c.toNat / 256)]
    simp only [if_neg (by decide : ¬(2 : Nat) = 0)]
    rw [show (2 : Nat) = 1 + 1 from rfl, parseBodyMode, hv (c.toNat / 16)]
    simp only [if_neg (by decide : ¬(1 : Nat) = 0)]
    rw [show (1 : Nat) = 0 + 1 from rfl, parseBodyMode, hv c.toNat]
    simp only [if_pos rfl, h, Option.map_some']
    have harith : 16 * (16 * (16 * (16 * 0 + c.toNat / 4096 % 16) + c.toNat / 256 % 16)
        + c.toNat / 16 % 16) + c.toNat % 16 = c.toNat := by omega
    rw [harith, Char.ofNat_toNat]
    simp
  · have e : parseBodyMode ([c] ++ l) PMode.normal =
        (parseBodyMode l PMode.normal).map fun q => (c :: q.1, q.2) := by
      rw [List.singleton_append, parseBodyMode, if_neg h1, if_neg h2]
    rw [e, h]; rfl

theorem parse_escChars (s : List Char) : ∀ rest : List Char,
    parseJsonStringBody (escChars s ++ '"' :: rest) = some (s, rest) := by
  induction s with
  | nil => intro rest; rfl
  | cons c cs ih =>
    intro rest
    have h2 := parse_jsonEscapeChar c (escChars cs ++ '"' :: rest) (cs, rest) (ih rest)
    simpa [parseJsonStringBody, escChars, List.append_assoc] using h2

/-! Helper lemmas for the identifier-allocation trace. -/

theorem allocsOf_append (es fs : List Event) :
    allocsOf (es ++ fs) = allocsOf es ++ allocsOf fs := by
  simp [allocsOf, List.filterMap_append]

theorem allocsOf_invokeAll (d : String) (l : List (Option CbSlot)) :
    allocsOf (invokeAll d l).1 = [] := by
  induction l with
  | nil => rfl
  | cons c rest ih =>
    cases c with
    | none => rfl
    | some s =>
      cases s with
      | null => rfl
      | fn tag => simpa [invokeAll, allocsOf] using ih

theorem onSQLResponse_frame (st : EngineState) (m : InboundMsg) :
    (onSQLResponse st m).state.queryCount = st.queryCount ∧
    allocsOf (onSQLResponse st m).events = [] := by
  obtain ⟨mi, mr, mja, mjb, me⟩ := m
  unfold onSQLResponse
  cases mr with
  | none => simp [allocsOf]
  | some rs =>
    cases lookupOpt st.table mi with
    | none => simp [allocsOf]
    | some req =>
      cases hc : req.callback <;> simp [hc, allocsOf]

theorem step_allocs (st : EngineState) (op : Op) :
    allocsOf (step st op).events =
      List.range' (st.queryCount + 1) ((step st op).state.queryCount - st.queryCount) ∧
    st.queryCount ≤ (step st op).state.queryCount := by
  cases op with
  | query sql tag nowMs hr =>
    by_cases h : st.connected <;>
      simp [step, prepareQuery, h, allocsOf, List.range', Nat.add_sub_cancel_left]
  | querySyncSubmit sql nowMs hr =>
    by_cases h : st.connected <;>
      simp [step, prepareQuery, h, allocsOf, List.range', Nat.add_sub_cancel_left]
  | response m =>
    obtain ⟨h1, h2⟩ := onSQLResponse_frame st m
    show allocsOf (onSQLResponse st m).events = _ ∧ _
    rw [h2, show (step st (Op.response m)).state = (onSQLResponse st m).state from rfl, h1]
    simp [List.range']
  | channelFault d =>
    have h := allocsOf_invokeAll d (collectCallbacks st.table)
    show allocsOf (onSQLError st d).events = _ ∧ _
    have he : (onSQLError st d).events = (invokeAll d (collectCallbacks st.table)).1 := rfl
    have hq : (onSQLError st d).state.queryCount = st.queryCount := rfl
    rw [he, h, show (step st (Op.channelFault d)).state = (onSQLError st d).state from rfl, hq]
    simp [List.range']
  | disconnect => simp [step, allocsOf, List.range']
  | reconnect => simp [step, allocsOf, List.range']

theorem runAllocs (ops : List Op) : ∀ st : EngineState,
    allocsOf (runEvents st ops) =
      List.range' (st.queryCount + 1) ((runState st ops).queryCount - st.queryCount) ∧
    st.queryCount ≤ (runState st ops).queryCount := by
  induction ops with
  | nil => intro st; simp [runEvents, runState, allocsOf]
  | cons op ops ih =>
    intro st
    obtain ⟨h1, h2⟩ := step_allocs st op
    obtain ⟨h3, h4⟩ := ih (step st op).state
    have hrs : runState st (op :: ops) = runState (step st op).state ops := rfl
    have hre : runEvents st (op :: ops)
        = (step st op).events ++ runEvents (step st op).state ops := rfl
    constructor
    · rw [hre, allocsOf_append, h1, h3, hrs]
      have e2 : (step st op).state.queryCount + 1
          = (st.queryCount + 1) + ((step st op).state.queryCount - st.queryCount) := by omega
      rw [e2, List.range'_append_1]
      congr 1
      omega
    · rw [hrs]; omega

/-! Claim theorems. -/

/-- C1: evaluation of the code at the failing inputs. An inbound message
whose `msgId` (42) has no pending entry invokes no continuation and leaves
the state unchanged, but — contrary to the claim — `onSQLResponse` raises
a `TypeError` (reading `request.hrstart` on `undefined`, index.js line 69);
likewise a message missing the `result` field raises a `TypeError` at
`result.length` (line 63) even when its `msgId` is pending. -/
theorem C1_unknown_msgId_throws :
    onSQLResponse ⟨true, 2, ⟨true, []⟩⟩ ⟨some 42, some [7], 0, 0, none⟩ =
      ⟨⟨true, 2, ⟨true, []⟩⟩, [],
       some (JsError.typeError ("request is undefined: request.hrstart"))⟩ ∧
    onSQLResponse ⟨true, 2, ⟨true, [⟨1, "s", 0, CbSlot.fn 10, (0, 0)⟩]⟩⟩
        ⟨some 1, none, 0, 0, none⟩ =
      ⟨⟨true, 2, ⟨true, []⟩⟩, [],
       some (JsError.typeError ("result is undefined: result.length"))⟩ := by
  decide

/-- C2: evaluation of the code at the failing input. On the first channel
fault of an instance with two pending requests, `onSQLError` does invoke
both continuations exactly once with the failure text and does leave the
table empty, but — contrary to the claim — it then raises a `TypeError`:
the loop also collected `(1).callback`, i.e. `undefined`, from the
`{ cat: 1 }` entry left in `currentMessages` by line 38, and calling it
throws. -/
theorem C2_channel_fault_typeError :
    onSQLError ⟨true, 2, ⟨true, [⟨1, "s", 0, CbSlot.fn 10, (0, 0)⟩,
        ⟨2, "t", 0, CbSlot.fn 20, (0, 0)⟩]⟩⟩ ("db down") =
      ⟨⟨true, 2, ⟨false, []⟩⟩,
       [Event.invoke 10 (some ("db down")) none, Event.invoke 20 (some ("db down")) none],
       some (JsError.typeError ("cb is undefined: not a function"))⟩ := by
  decide

/-- C3 counterexample: when the first output line is `boom`, the connect
callback is invoked with the failure, but the stderr handshake listener is
NOT detached (`connectCore` only removes it on the success path, index.js
line 124); a subsequent error-stream event therefore invokes the connect
callback a second time, contradicting the claim that the callback can
never be invoked twice. -/
theorem C3_handshake_counterexample :
    (handshakeRun handshakeInit
        [StreamEvent.stdout ("boom"), StreamEvent.stderrData ("oops")]).2 =
      [ConnectCb.err ("Error connecting boom"), ConnectCb.err ("oops")] ∧
    (handshakeStep handshakeInit (StreamEvent.stdout ("boom"))).1.stderrOnce = true := by
  decide

/-- C3 amended: if the first output line trims to `connected`, the connect
callback succeeds with that literal text, the connected flag is set, and
the stderr handshake listener is detached; if error-stream data arrives
first, the stdout handshake listener is detached, the worker is killed and
the callback fails with that text; but if the first output line is any
other text, the callback fails with an error embedding the trimmed text
while the stderr handshake listener remains attached, so a subsequent
error-stream event invokes the connect callback a second time. -/
theorem C3_handshake_amended (out errData : String) :
    (jsTrim out = "connected" →
      handshakeStep handshakeInit (StreamEvent.stdout out) =
        (⟨false, false, true, true, false⟩, [ConnectCb.ok ("connected")])) ∧
    (jsTrim out ≠ "connected" →
      handshakeStep handshakeInit (StreamEvent.stdout out) =
        (⟨false, true, false, false, false⟩,
         [ConnectCb.err ("Error connecting " ++ jsTrim out)]) ∧
      (handshakeRun handshakeInit
          [StreamEvent.stdout out, StreamEvent.stderrData errData]).2 =
        [ConnectCb.err ("Error connecting " ++ jsTrim out), ConnectCb.err errData]) ∧
    handshakeStep handshakeInit (StreamEvent.stderrData errData) =
      (⟨false, false, false, false, true⟩, [ConnectCb.err errData]) := by
  refine ⟨fun h => ?_, fun h => ⟨?_, ?_⟩, ?_⟩ <;>
    simp_all [handshakeStep, handshakeRun, handshakeInit]

/-- C3 witness: the amended theorem applied at concrete inputs. -/
theorem C3_handshake_amended_witness :
    handshakeStep handshakeInit (StreamEvent.stdout (" connected ")) =
      (⟨false, false, true, true, false⟩, [ConnectCb.ok ("connected")]) ∧
    (handshakeRun handshakeInit
        [StreamEvent.stdout ("bad"), StreamEvent.stderrData ("late")]).2 =
      [ConnectCb.err ("Error connecting bad"), ConnectCb.err ("late")] :=
  ⟨(C3_handshake_amended (" connected ") ("x")).1 (by decide),
   ((C3_handshake_amended ("bad") ("late")).2.1 (by decide)).2⟩

/-- C4 counterexample: the line actually written for a concrete submission
carries a fourth field `hrstart` (the `process.hrtime()` pair serialized
by `JSON.stringify(msg)`, index.js line 174), so it differs from the
three-field envelope the claim describes. -/
theorem C4_wire_fields_counterexample :
    wireMsg ⟨1, "SELECT 1", 5, CbSlot.fn 0, (2, 3)⟩ =
      "\x7b\"msgId\":1,\"sql\":\"SELECT 1\",\"sentTime\":5,\"hrstart\":[2,3]\x7d" ∧
    wireMsg ⟨1, "SELECT 1", 5, CbSlot.fn 0, (2, 3)⟩ ≠
      specEnvelope ⟨1, "SELECT 1", 5, CbSlot.fn 0, (2, 3)⟩ := by
  decide

/-- C4 amended: the serialized line is subject only to the newline
replacement (a no-op) and contains exactly the fields `msgId`, `sql`,
`sentTime` and `hrstart` in callback mode — the function-valued `callback`
property is dropped by `JSON.stringify` — and additionally `callback:null`
in promise mode, where `querySync` stored `null`. -/
theorem C4_wire_fields_amended (m : Msg) :
    wireMsg m = stringifyMsg m ∧
    (msgProps m).map Prod.fst = ["msgId", "sql", "sentTime", "callback", "hrstart"] ∧
    (msgProps m).filterMap renderProp =
      (match m.callback with
       | CbSlot.fn _ =>
         [quoteJson ("msgId") ++ ":" ++ natToString m.msgId,
          quoteJson ("sql") ++ ":" ++ quoteJson m.sql,
          quoteJson ("sentTime") ++ ":" ++ natToString m.sentTime,
          quoteJson ("hrstart") ++ ":"
            ++ ("[" ++ joinComma [natToString m.hrstart.1, natToString m.hrstart.2] ++ "]")]
       | CbSlot.null =>
         [quoteJson ("msgId") ++ ":" ++ natToString m.msgId,
          quoteJson ("sql") ++ ":" ++ quoteJson m.sql,
          quoteJson ("sentTime") ++ ":" ++ natToString m.sentTime,
          quoteJson ("callback") ++ ":" ++ "null",
          quoteJson ("hrstart") ++ ":"
            ++ ("[" ++ joinComma [natToString m.hrstart.1, natToString m.hrstart.2] ++ "]")]) := by
  refine ⟨wireMsg_eq_stringifyMsg m, rfl, ?_⟩
  cases hc : m.callback <;> simp [msgProps, renderProp, stringifyVal, hc]

/-- C5 counterexample: `querySync`'s own listener resolves with the raw
`jsonMsg.result` (index.js line 236), so a length-1 result reaches the
future as the one-element sequence, not as the bare element the claim
requires. -/
theorem C5_unwrap_counterexample :
    querySyncOnResponse 1 ⟨some 1, some [7], 0, 0, none⟩ =
      some (Event.resolve (Delivered.list [7])) ∧
    Delivered.list [7] ≠ Delivered.elem 7 := by
  decide

/-- C5 amended: in callback mode, `onSQLResponse` delivers the bare single
element for a length-1 result and the unchanged ordered sequence
otherwise; in promise mode, `querySync`'s resolver passes the result
sequence through unchanged in every case, including length 1. -/
theorem C5_unwrap_amended :
    (∀ (st : EngineState) (i tag : Nat) (req : Msg) (rs : List RS) (a b : Nat)
        (e : Option String),
      st.table.lookup i = some req → req.callback = CbSlot.fn tag →
      onSQLResponse st ⟨some i, some rs, a, b, e⟩ =
        ⟨{ st with table := st.table.remove i },
         [Event.invoke tag e (some (unwrapResult rs))], none⟩) ∧
    (∀ (rs : List RS), unwrapResult rs =
      (match rs with
       | [r] => Delivered.elem r
       | _ => Delivered.list rs)) ∧
    (∀ (qc : Nat) (rs : List RS) (a b : Nat),
      querySyncOnResponse qc ⟨some qc, some rs, a, b, none⟩ =
        some (Event.resolve (Delivered.list rs))) := by
  refine ⟨?_, fun rs => rfl, ?_⟩
  · intro st i tag req rs a b e hl hc
    simp [onSQLResponse, lookupOpt, removeOpt, hl, hc]
  · intro qc rs a b
    simp [querySyncOnResponse]

/-- C5 witness: the amended theorem applied at concrete inputs. -/
theorem C5_unwrap_amended_witness :
    onSQLResponse ⟨true, 3, ⟨true, [⟨2, "q", 0, CbSlot.fn 9, (0, 0)⟩]⟩⟩
        ⟨some 2, some [5], 0, 0, none⟩ =
      ⟨⟨true, 3, ⟨true, []⟩⟩, [Event.invoke 9 none (some (Delivered.elem 5))], none⟩ :=
  (C5_unwrap_amended.1 ⟨true, 3, ⟨true, [⟨2, "q", 0, CbSlot.fn 9, (0, 0)⟩]⟩⟩
    2 9 ⟨2, "q", 0, CbSlot.fn 9, (0, 0)⟩ [5] 0 0 none (by decide) rfl).trans (by decide)

/-- C6: starting from a freshly connected instance, the identifiers
allocated over any operation sequence are exactly `1, 2, ..., n` in
submission order (`n` being the final `queryCount`), hence strictly
increasing from 1 with no repetition; and a submission attempted while not
connected leaves the state unchanged and allocates no identifier. -/
theorem C6_identifier_allocation :
    (∀ ops : List Op,
      allocsOf (runEvents initConnected ops) =
        List.range' 1 (runState initConnected ops).queryCount) ∧
    (∀ (st : EngineState) (sql : String) (tag nowMs : Nat) (hr : Nat × Nat),
      st.connected = false →
      (step st (Op.query sql tag nowMs hr)).state = st ∧
      allocsOf (step st (Op.query sql tag nowMs hr)).events = [] ∧
      (step st (Op.querySyncSubmit sql nowMs hr)).state = st ∧
      allocsOf (step st (Op.querySyncSubmit sql nowMs hr)).events = []) := by
  constructor
  · intro ops
    have h := (runAllocs ops initConnected).1
    simpa [initConnected] using h
  · intro st sql tag nowMs hr h
    refine ⟨?_, ?_, ?_, ?_⟩ <;> simp [step, prepareQuery, h, allocsOf]

/-- C6 witness: the allocation theorem applied at a concrete operation
sequence, and the no-allocation part at a concrete disconnected state. -/
theorem C6_identifier_allocation_witness :
    allocsOf (runEvents initConnected
      [Op.query ("a") 1 0 (0, 0), Op.querySyncSubmit ("b") 0 (0, 0),
       Op.query ("c") 2 0 (0, 0)]) = [1, 2, 3] ∧
    (step ⟨false, 3, ⟨true, []⟩⟩ (Op.query ("s") 7 0 (0, 0))).state = ⟨false, 3, ⟨true, []⟩⟩ :=
  ⟨(C6_identifier_allocation.1
      [Op.query ("a") 1 0 (0, 0), Op.querySyncSubmit ("b") 0 (0, 0),
       Op.query ("c") 2 0 (0, 0)]).trans (by decide),
   (C6_identifier_allocation.2 ⟨false, 3, ⟨true, []⟩⟩ ("s") 7 0 (0, 0) rfl).1⟩

/-- C7: a submission while not connected reports the not-connected error
through the caller's own channel — the callback in `query` mode, the
rejected promise in `querySync` mode — and has no side effect: the state
(counter and table) is unchanged and no write event occurs. -/
theorem C7_not_connected_no_side_effect (st : EngineState) (sql : String)
    (tag nowMs : Nat) (hr : Nat × Nat) (h : st.connected = false) :
    step st (Op.query sql tag nowMs hr) =
      ⟨st, [Event.invoke tag (some ("Database isn\x27t connected.")) none], none⟩ ∧
    step st (Op.querySyncSubmit sql nowMs hr) =
      ⟨st, [Event.reject ("Database isn\x27t connected.")], none⟩ := by
  constructor <;> simp [step, prepareQuery, h]

/-- C7 witness: the theorem applied at a concrete disconnected state. -/
theorem C7_not_connected_no_side_effect_witness :
    step ⟨false, 5, ⟨true, []⟩⟩ (Op.query ("S") 1 0 (0, 0)) =
      ⟨⟨false, 5, ⟨true, []⟩⟩,
       [Event.invoke 1 (some ("Database isn\x27t connected.")) none], none⟩ ∧
    step ⟨false, 5, ⟨true, []⟩⟩ (Op.querySyncSubmit ("S") 0 (0, 0)) =
      ⟨⟨false, 5, ⟨true, []⟩⟩, [Event.reject ("Database isn\x27t connected.")], none⟩ :=
  C7_not_connected_no_side_effect ⟨false, 5, ⟨true, []⟩⟩ ("S") 1 0 (0, 0) rfl

/-- C8: the wire line is the `JSON.stringify` output unchanged (the
newline `replace` is a no-op because `stringify` already escaped every
newline), it contains no raw newline character, the `sql` field is
serialized as the JSON quotation of the sql text, and running the standard
JSON string-literal decoder on the escaped sql body followed by its
closing quote returns exactly the original text — line breaks included —
and the remaining input. -/
theorem C8_sql_roundtrip (m : Msg) :
    '\n' ∉ (wireMsg m).data ∧
    wireMsg m = stringifyMsg m ∧
    (quoteJson m.sql).data = '"' :: (escChars m.sql.data ++ ['"']) ∧
    ((msgProps m).filterMap renderProp)[1]? =
      some (quoteJson ("sql") ++ ":" ++ quoteJson m.sql) ∧
    (∀ rest : List Char,
      parseJsonStringBody (escChars m.sql.data ++ '"' :: rest) = some (m.sql.data, rest)) := by
  refine ⟨?_, wireMsg_eq_stringifyMsg m, rfl, rfl, parse_escChars m.sql.data⟩
  show '\n' ∉ replNl (stringifyMsg m).data
  exact nl_not_mem_replNl _

/-- C9: `querySync` hands `null` to `prepareQuery`, which stores it as the
pending entry's `callback`; when a response for that entry is dispatched
through the table-based `onSQLResponse`, calling the stored `null`
continuation raises a `TypeError` and no continuation is invoked, so the
shared dispatch path errors on every `querySync` response. -/
theorem C9_querySync_null_dispatch (st : EngineState) (sql : String) (nowMs : Nat)
    (hr : Nat × Nat) (h : st.connected = true) :
    (prepareQuery st sql CbSlot.null nowMs hr).1.table =
      st.table.insert ⟨st.queryCount + 1, sql, nowMs, CbSlot.null, hr⟩ ∧
    (∀ (i : Nat) (req : Msg) (rs : List RS) (a b : Nat) (e : Option String),
      st.table.lookup i = some req → req.callback = CbSlot.null →
      onSQLResponse st ⟨some i, some rs, a, b, e⟩ =
        ⟨{ st with table := st.table.remove i }, [],
         some (JsError.typeError ("request.callback is null: not a function"))⟩) := by
  constructor
  · simp [prepareQuery, h]
  · intro i req rs a b e hl hc
    simp [onSQLResponse, lookupOpt, removeOpt, hl, hc]

/-- C9 witness: the theorem applied at a concrete connected state with a
pending null-callback entry. -/
theorem C9_querySync_null_dispatch_witness :
    (prepareQuery ⟨true, 0, ⟨true, []⟩⟩ ("Q") CbSlot.null 4 (1, 2)).1.table =
      Table.insert ⟨true, []⟩ ⟨1, "Q", 4, CbSlot.null, (1, 2)⟩ ∧
    onSQLResponse ⟨true, 1, ⟨true, [⟨1, "Q", 4, CbSlot.null, (1, 2)⟩]⟩⟩
        ⟨some 1, some [8], 0, 0, none⟩ =
      ⟨⟨true, 1, ⟨true, []⟩⟩, [],
       some (JsError.typeError ("request.callback is null: not a function"))⟩ :=
  ⟨(C9_querySync_null_dispatch ⟨true, 0, ⟨true, []⟩⟩ ("Q") 4 (1, 2) rfl).1,
   ((C9_querySync_null_dispatch ⟨true, 1, ⟨true, [⟨1, "Q", 4, CbSlot.null, (1, 2)⟩]⟩⟩
      ("Q") 4 (1, 2) rfl).2 1 ⟨1, "Q", 4, CbSlot.null, (1, 2)⟩ [8] 0 0 none
      (by decide) rfl).trans (by decide)⟩

/-- C10: `disconnect()` only kills the worker and clears the connected
flag — the counter and the pending table (entries included) are untouched
and no continuation is invoked; after a reconnect the state differs from
the original only in the connected flag, and the next submission allocates
the old counter plus one, so identifiers keep increasing across
disconnect/reconnect cycles. -/
theorem C10_disconnect_frame (st : EngineState) (sql : String) (tag nowMs : Nat)
    (hr : Nat × Nat) :
    step st Op.disconnect = ⟨⟨false, st.queryCount, st.table⟩, [Event.kill], none⟩ ∧
    runState st [Op.disconnect, Op.reconnect] = ⟨true, st.queryCount, st.table⟩ ∧
    allocsOf (runEvents st [Op.disconnect, Op.reconnect, Op.query sql tag nowMs hr]) =
      [st.queryCount + 1] := by
  refine ⟨?_, ?_, ?_⟩
  · cases st; rfl
  · cases st; rfl
  · simp [runEvents, runState, step, prepareQuery, allocsOf]

end Sybase

